import Mathlib

/-!
Shallow embedding of the TIM-System Django models (apps/inventory, apps/finance,
apps/orders, apps/tracking) and proofs about the save-time cascade logic.

Conventions of the embedding:
* `DecimalField` values are rationals (`ℚ`): decimal arithmetic is exact and
  embeds into `ℚ`.
* `PositiveIntegerField` values stored on a row are `Int` (Python arithmetic is
  over unbounded ints; the DB constraint `0 ≤ _` is carried as a hypothesis
  where it matters), while a transaction's `quantity` payload is likewise `Int`.
* `CharField` status values are `String`, as in the source.
* Django's `obj.save()` cascades are modelled as pure functions from the old
  row states (plus the relevant related rows) to the new row states.
* Timestamps (`timezone.now()`) are an abstract `Nat` parameter `now`.
-/

namespace TIM

/-! ## apps/inventory/models.py -/

/-- Row state of `InventoryItem` (product/warehouse identity omitted: every
cascade below acts on an already-resolved item). -/
structure InventoryItem where
  quantity : Int
  reserved_quantity : Int
  unit_cost : ℚ
  deriving DecidableEq, Repr

/-- `InventoryItem.available_quantity`: quantity minus reserved. -/
def InventoryItem.available_quantity (i : InventoryItem) : Int :=
  i.quantity - i.reserved_quantity

/-- `InventoryItem.total_value`: quantity times unit cost. -/
def InventoryItem.total_value (i : InventoryItem) : ℚ :=
  (i.quantity : ℚ) * i.unit_cost

/-- Payload of an `InventoryTransaction` row. `has_destination` is whether
`destination_warehouse` is set (non-null). -/
structure InventoryTransaction where
  transaction_type : String
  quantity : Int
  unit_cost : ℚ
  has_destination : Bool
  deriving DecidableEq, Repr

/-- `InventoryTransaction._update_inventory`: the per-type mutation of the
source item (`get_or_create`d on `(product, source_warehouse)`) and, for
`transfer`, the destination item.  Returns `(source_item, dest_item)` after the
update.  Each guarded branch silently does nothing when its stock/reserve
precondition fails, exactly as in the source. -/
def InventoryTransaction.update_inventory (t : InventoryTransaction)
    (source_item dest_item : InventoryItem) : InventoryItem × InventoryItem :=
  if t.transaction_type = "receipt" then
    ({ source_item with quantity := source_item.quantity + t.quantity,
                        unit_cost := t.unit_cost }, dest_item)
  else if t.transaction_type = "issue" then
    (if source_item.quantity ≥ t.quantity then
      { source_item with quantity := source_item.quantity - t.quantity }
     else source_item, dest_item)
  else if t.transaction_type = "transfer" ∧ t.has_destination then
    if source_item.quantity ≥ t.quantity then
      ({ source_item with quantity := source_item.quantity - t.quantity },
       { dest_item with quantity := dest_item.quantity + t.quantity })
    else (source_item, dest_item)
  else if t.transaction_type = "adjustment" then
    ({ source_item with quantity := t.quantity }, dest_item)
  else if t.transaction_type = "return" then
    ({ source_item with quantity := source_item.quantity + t.quantity }, dest_item)
  else if t.transaction_type = "reservation" then
    (if source_item.available_quantity ≥ t.quantity then
      { source_item with reserved_quantity := source_item.reserved_quantity + t.quantity }
     else source_item, dest_item)
  else if t.transaction_type = "release" then
    (if source_item.reserved_quantity ≥ t.quantity then
      { source_item with reserved_quantity := source_item.reserved_quantity - t.quantity }
     else source_item, dest_item)
  else (source_item, dest_item)

/-- `InventoryTransaction.save`: persists the row then runs
`_update_inventory`; the observable item effect is that of
`update_inventory`. -/
def InventoryTransaction.saveEffect (t : InventoryTransaction)
    (source_item dest_item : InventoryItem) : InventoryItem × InventoryItem :=
  t.update_inventory source_item dest_item

/-- The item `quantity=10, reserved_quantity=0` of the C1 scenario. -/
def c1Item : InventoryItem := ⟨10, 0, 1⟩

/-- A reservation transaction of `n` units. -/
def reserveTxn (n : Int) : InventoryTransaction := ⟨"reservation", n, 1, false⟩

/-- A release transaction of `n` units. -/
def releaseTxn (n : Int) : InventoryTransaction := ⟨"release", n, 1, false⟩

/-- Result of reserving 5 then releasing 7 against `c1Item`. -/
def c1Seq : InventoryItem :=
  (((reserveTxn 5).saveEffect c1Item c1Item).1 |>
    fun it => ((releaseTxn 7).saveEffect it c1Item).1)

/-- Claim C1, counterexample: on the item with `quantity=10, reserved=0`,
saving a reservation of 5 then a release of 7 leaves `reserved_quantity` at 5,
not 0 as the claim states: the release's guard `reserved_quantity ≥ 7` fails,
so the release is a silent no-op. -/
theorem c1_release_seven_counterexample :
    c1Seq.reserved_quantity = 5 ∧ ¬ c1Seq.reserved_quantity = 0 := by decide

/-- Claim C1 (amended): on the item with `quantity=10, reserved=0`, a
reservation of 12 is a no-op (`reserved_quantity` stays 0, since
`available_quantity = 10 < 12`); a reservation of 5 followed by a release of 7
leaves `reserved_quantity` at 5 (the release is a no-op since only 5 units are
reserved); and `_update_inventory` never drives `reserved_quantity` negative:
for any transaction with a non-negative quantity, a non-negative
`reserved_quantity` stays non-negative. -/
theorem c1_reservation_release_behaviour
    (t : InventoryTransaction) (src dst : InventoryItem)
    (hres : 0 ≤ src.reserved_quantity) (hq : 0 ≤ t.quantity) :
    ((reserveTxn 12).saveEffect c1Item c1Item).1.reserved_quantity = 0 ∧
    c1Seq.reserved_quantity = 5 ∧
    0 ≤ (t.update_inventory src dst).1.reserved_quantity := by
  refine ⟨by decide, by decide, ?_⟩
  unfold InventoryTransaction.update_inventory
  split_ifs <;> (simp_all; try omega)

/-- Witness for `c1_reservation_release_behaviour` at a concrete input. -/
theorem c1_reservation_release_behaviour_witness :
    0 ≤ c1Item.reserved_quantity ∧ 0 ≤ (reserveTxn 5).quantity ∧
    0 ≤ ((reserveTxn 5).update_inventory c1Item c1Item).1.reserved_quantity :=
  ⟨by decide, by decide,
    (c1_reservation_release_behaviour (reserveTxn 5) c1Item c1Item
      (by decide) (by decide)).2.2⟩

/-! ## apps/finance/models.py — Debt / DebtPayment -/

/-- Row state of `Debt` (the fields the payment cascade touches). -/
structure Debt where
  amount : ℚ
  paid_amount : ℚ
  status : String
  deriving DecidableEq, Repr

/-- `Debt.remaining_amount`: amount minus paid amount (both fields are
non-null in the schema, so the `None` guards in the source are inert). -/
def Debt.remaining_amount (d : Debt) : ℚ :=
  d.amount - d.paid_amount

/-- `Debt.update_status`: re-derives `status` from `paid_amount` vs `amount`
by the fixed thresholds, then persists.  The `None` back-fills in the source
are inert because both fields are non-null in the schema. -/
def Debt.update_status (d : Debt) : Debt :=
  if d.paid_amount ≥ d.amount then { d with status := "paid" }
  else if d.paid_amount > 0 then { d with status := "partially_paid" }
  else { d with status := "active" }

/-- `DebtPayment.save`: after inserting the payment row, sets the owning
debt's `paid_amount` to the sum over all of that debt's payments (`payments`
is the amounts of all of the debt's payment rows, the new one included;
`Sum` of no rows is `None`, mapped to 0) and calls `update_status`. -/
def DebtPayment.save (payments : List ℚ) (d : Debt) : Debt :=
  Debt.update_status { d with paid_amount := payments.sum }

/-- Claim C2: after `DebtPayment.save`, the debt's `paid_amount` is the sum of
all of its payments' amounts, and its status is re-derived by the fixed
thresholds: `paid_amount ≥ amount` (the boundary `paid_amount = amount`
included) gives `paid`, `0 < paid_amount < amount` gives `partially_paid`,
and otherwise (`paid_amount ≤ 0`) `active`. -/
theorem c2_debt_payment_recomputes_paid_and_status (d : Debt) (payments : List ℚ) :
    (DebtPayment.save payments d).paid_amount = payments.sum ∧
    (DebtPayment.save payments d).status =
      (if payments.sum ≥ d.amount then "paid"
       else if 0 < payments.sum then "partially_paid"
       else "active") := by
  unfold DebtPayment.save Debt.update_status
  split_ifs <;> simp_all

/-- Claim C10: `Debt.update_status` only ever assigns a status among `paid`,
`partially_paid`, `active`; in particular saving a `DebtPayment` against a
debt whose status is `cancelled` overwrites `cancelled` with one of those
three statuses. -/
theorem c10_update_status_range (d : Debt) (payments : List ℚ)
    (_hc : d.status = "cancelled") :
    ((DebtPayment.save payments d).status = "paid" ∨
     (DebtPayment.save payments d).status = "partially_paid" ∨
     (DebtPayment.save payments d).status = "active") ∧
    ((d.update_status).status = "paid" ∨
     (d.update_status).status = "partially_paid" ∨
     (d.update_status).status = "active") ∧
    ¬ (DebtPayment.save payments d).status = "cancelled" := by
  unfold DebtPayment.save Debt.update_status
  split_ifs <;> simp_all

/-- Witness for `c10_update_status_range` at a concrete input. -/
theorem c10_update_status_range_witness :
    (Debt.mk 100 0 "cancelled").status = "cancelled" ∧
    ¬ (DebtPayment.save [30] (Debt.mk 100 0 "cancelled")).status = "cancelled" :=
  ⟨rfl, (c10_update_status_range (Debt.mk 100 0 "cancelled") [30] rfl).2.2⟩

/-! ## apps/orders/models.py -/

/-- The fields of `Product` the `OrderItem` back-fill reads. -/
structure Product where
  name : String
  sku : Option String
  selling_price : Option ℚ
  deriving DecidableEq, Repr

/-- Row state of `OrderItem`. -/
structure OrderItem where
  product : Option Product
  product_name : String
  product_sku : Option String
  quantity : Int
  unit_price : ℚ
  deriving DecidableEq, Repr

/-- `OrderItem.subtotal`: quantity times unit price. -/
def OrderItem.subtotal (it : OrderItem) : ℚ :=
  (it.quantity : ℚ) * it.unit_price

/-- Row state of `Order` together with its related `OrderItem` rows. -/
structure Order where
  status : String
  paid_at : Option Nat
  shipped_at : Option Nat
  delivered_at : Option Nat
  total_amount : ℚ
  paid_amount : ℚ
  shipping_cost : ℚ
  items : List OrderItem
  deriving DecidableEq, Repr

/-- `Order.save`: stamps `paid_at` / `shipped_at` / `delivered_at` on first
entry to the matching status (the `elif` chain stamps at most one date per
save), then persists. -/
def Order.save (now : Nat) (o : Order) : Order :=
  if o.status = "paid" ∧ o.paid_at = none then { o with paid_at := some now }
  else if o.status = "shipped" ∧ o.shipped_at = none then { o with shipped_at := some now }
  else if o.status = "delivered" ∧ o.delivered_at = none then { o with delivered_at := some now }
  else o

/-- `Order.calculate_total`: sets `total_amount` to the sum of the items'
subtotals plus `shipping_cost`, then saves. -/
def Order.calculate_total (now : Nat) (o : Order) : Order :=
  Order.save now
    { o with total_amount := (o.items.map OrderItem.subtotal).sum + o.shipping_cost }

/-- The back-fill at the top of `OrderItem.save`: if a product is linked and
`product_name` is blank, copy name, sku and `selling_price or 0` from it. -/
def OrderItem.fill (it : OrderItem) : OrderItem :=
  match it.product with
  | some p =>
      if it.product_name = "" then
        { it with product_name := p.name, product_sku := p.sku,
                  unit_price := p.selling_price.getD 0 }
      else it
  | none => it

/-- `OrderItem.save`: back-fills from the product, persists the item row
(appending it to the order's item set), then synchronously recomputes the
order's total via `calculate_total`. -/
def OrderItem.save (now : Nat) (it : OrderItem) (o : Order) : Order :=
  Order.calculate_total now { o with items := o.items ++ [it.fill] }

/-- Payload of a `Payment` row. -/
structure Payment where
  amount : ℚ
  status : String
  deriving DecidableEq, Repr

/-- `Payment.save`: persists the payment, then if its status is `completed`
adds its amount to the order's `paid_amount`, flips a `pending` order to
`paid` when the new `paid_amount` reaches `total_amount`, and saves the
order.  A non-`completed` payment leaves the order untouched. -/
def Payment.save (now : Nat) (p : Payment) (o : Order) : Order :=
  if p.status = "completed" then
    let o1 : Order := { o with paid_amount := o.paid_amount + p.amount }
    let o2 : Order :=
      if o1.paid_amount ≥ o1.total_amount ∧ o1.status = "pending" then
        { o1 with status := "paid" }
      else o1
    Order.save now o2
  else o

/-- `Order.save` only stamps dates: every other field is unchanged. -/
theorem order_save_fields (now : Nat) (o : Order) :
    (Order.save now o).status = o.status ∧
    (Order.save now o).total_amount = o.total_amount ∧
    (Order.save now o).paid_amount = o.paid_amount ∧
    (Order.save now o).shipping_cost = o.shipping_cost ∧
    (Order.save now o).items = o.items := by
  unfold Order.save
  split_ifs <;> simp

/-- A completed payment adds its amount to the order's `paid_amount`. -/
theorem payment_save_paid_amount (now : Nat) (p : Payment) (o : Order)
    (hp : p.status = "completed") :
    (Payment.save now p o).paid_amount = o.paid_amount + p.amount := by
  unfold Payment.save
  rw [if_pos hp]
  dsimp only
  split_ifs <;> exact (order_save_fields now _).2.2.1

/-- Claim C3: saving a payment whose status is `completed` increases the
owning order's `paid_amount` by the payment's amount, and if the resulting
`paid_amount` reaches `total_amount` while the order's status is `pending`,
the order's status becomes `paid`. -/
theorem c3_completed_payment_cascade (now : Nat) (p : Payment) (o : Order)
    (hp : p.status = "completed") :
    (Payment.save now p o).paid_amount = o.paid_amount + p.amount ∧
    (o.paid_amount + p.amount ≥ o.total_amount → o.status = "pending" →
      (Payment.save now p o).status = "paid") := by
  refine ⟨payment_save_paid_amount now p o hp, fun hge hpend => ?_⟩
  unfold Payment.save
  rw [if_pos hp]
  dsimp only
  split_ifs with h
  · exact ((order_save_fields now _).1).trans rfl
  · exact absurd ⟨hge, hpend⟩ h

/-- Witness for `c3_completed_payment_cascade` at a concrete input. -/
theorem c3_completed_payment_cascade_witness :
    (Payment.mk 50 "completed").status = "completed" ∧
    (Payment.save 0 (Payment.mk 50 "completed")
        (Order.mk "pending" none none none 40 0 0 [])).paid_amount = 0 + 50 ∧
    (Payment.save 0 (Payment.mk 50 "completed")
        (Order.mk "pending" none none none 40 0 0 [])).status = "paid" :=
  ⟨rfl,
   (c3_completed_payment_cascade 0 (Payment.mk 50 "completed")
      (Order.mk "pending" none none none 40 0 0 []) rfl).1,
   (c3_completed_payment_cascade 0 (Payment.mk 50 "completed")
      (Order.mk "pending" none none none 40 0 0 []) rfl).2 (by norm_num) rfl⟩

/-- `n` repeated saves of the same payment row against (the successive states
of) its order. -/
def savePaymentTimes (now : Nat) (p : Payment) : Nat → Order → Order
  | 0, o => o
  | n + 1, o => savePaymentTimes now p n (Payment.save now p o)

/-- Claim C4: the `paid_amount` cascade runs on every save of a `completed`
payment, not only on the transition into `completed`: saving the same
completed payment `n` times increases the order's `paid_amount` by
`n × amount` — the cascade is not idempotent under repeated save. -/
theorem c4_repeated_save_not_idempotent (now : Nat) (p : Payment) (n : Nat)
    (o : Order) (hp : p.status = "completed") :
    (savePaymentTimes now p n o).paid_amount = o.paid_amount + n * p.amount := by
  induction n generalizing o with
  | zero => simp [savePaymentTimes]
  | succ n ih =>
      rw [savePaymentTimes, ih (Payment.save now p o),
        payment_save_paid_amount now p o hp]
      push_cast
      ring

/-- Witness for `c4_repeated_save_not_idempotent` at a concrete input. -/
theorem c4_repeated_save_not_idempotent_witness :
    (Payment.mk 50 "completed").status = "completed" ∧
    (savePaymentTimes 0 (Payment.mk 50 "completed") 3
        (Order.mk "pending" none none none 40 0 0 [])).paid_amount =
      0 + 3 * 50 :=
  ⟨rfl,
   c4_repeated_save_not_idempotent 0 (Payment.mk 50 "completed") 3
     (Order.mk "pending" none none none 40 0 0 []) rfl⟩

/-- Claim C6: `Order.calculate_total` sets `total_amount` to the sum over the
order's items of `quantity × unit_price` plus `shipping_cost`, and this runs
synchronously on every `OrderItem.save`; in particular an order with items
`(qty=2, price=10)` and `(qty=1, price=5)` and `shipping_cost=3` ends with
`total_amount = 28` once the second item is saved. -/
theorem c6_calculate_total_on_item_save (now : Nat) (it : OrderItem) (o : Order) :
    (OrderItem.save now it o).total_amount =
      ((o.items ++ [it.fill]).map OrderItem.subtotal).sum + o.shipping_cost ∧
    (Order.calculate_total now o).total_amount =
      (o.items.map OrderItem.subtotal).sum + o.shipping_cost ∧
    (OrderItem.save 0 (OrderItem.mk none "B" none 1 5)
        (Order.mk "draft" none none none 0 0 3
          [OrderItem.mk none "A" none 2 10])).total_amount = 28 := by
  refine ⟨?_, ?_, ?_⟩
  · unfold OrderItem.save Order.calculate_total
    exact ((order_save_fields now _).2.1).trans rfl
  · unfold Order.calculate_total
    exact ((order_save_fields now _).2.1).trans rfl
  · unfold OrderItem.save Order.calculate_total Order.save OrderItem.fill
    norm_num [OrderItem.subtotal]
    split_ifs <;> rfl

/-! ## apps/finance/models.py — Account / Transaction

Accounts are identified by a `Nat` id; the account table is a balance map
`Nat → ℚ`, and the transaction table is the list of persisted rows. -/

/-- Payload of a `Transaction` row.  `source_account` is a non-null foreign
key; `destination_account` is nullable. -/
structure Transaction where
  transaction_type : String
  amount : ℚ
  source_account : Nat
  destination_account : Option Nat
  deriving DecidableEq, Repr

/-- The finance tables a `Transaction.save` touches. -/
structure FinanceState where
  balances : Nat → ℚ
  txns : List Transaction

/-- Sum of `incoming_transactions.amount` for account `aid`: transactions
whose `destination_account` is `aid`. -/
def incomingTotal (txns : List Transaction) (aid : Nat) : ℚ :=
  ((txns.filter fun t => t.destination_account = some aid).map
    fun t => t.amount).sum

/-- Sum of `outgoing_transactions.amount` for account `aid`: transactions
whose `source_account` is `aid`. -/
def outgoingTotal (txns : List Transaction) (aid : Nat) : ℚ :=
  ((txns.filter fun t => t.source_account = aid).map fun t => t.amount).sum

/-- `Account.update_balance`: sets the balance to aggregated income minus
aggregated expense.  `readResult = none` models the aggregation raising: the
exception is swallowed and the prior balance is kept. -/
def Account.update_balance (readResult : Option (ℚ × ℚ)) (balance : ℚ) : ℚ :=
  match readResult with
  | some (income, expense) => income - expense
  | none => balance

/-- One `update_balance()` call on account `aid` (successful aggregation),
as an update of the balance map. -/
def recomputeAccount (txns : List Transaction) (aid : Nat)
    (balances : Nat → ℚ) : Nat → ℚ :=
  fun x =>
    if x = aid then
      Account.update_balance
        (some (incomingTotal txns aid, outgoingTotal txns aid)) (balances aid)
    else balances x

/-- The normalization at the top of `Transaction.save`: `income` forces the
destination equal to the source; `expense` forces it to null; other types
keep the stored destination. -/
def Transaction.normalize (t : Transaction) : Transaction :=
  if t.transaction_type = "income" then
    { t with destination_account := some t.source_account }
  else if t.transaction_type = "expense" then
    { t with destination_account := none }
  else t

/-- `Transaction.save`: normalizes the row, persists it, then recomputes the
source account's balance and — when a destination is set and differs from the
source — the destination account's balance. -/
def Transaction.save (s : FinanceState) (t0 : Transaction) : FinanceState :=
  let t := t0.normalize
  let txns := s.txns ++ [t]
  let b1 := recomputeAccount txns t.source_account s.balances
  match t.destination_account with
  | some d => if d = t.source_account then ⟨b1, txns⟩
              else ⟨recomputeAccount txns d b1, txns⟩
  | none => ⟨b1, txns⟩

/-- Normalization never changes the source account. -/
theorem normalize_source_account (t : Transaction) :
    t.normalize.source_account = t.source_account := by
  unfold Transaction.normalize
  split_ifs <;> rfl

/-- Evaluating a recomputed balance map at the recomputed account. -/
theorem recomputeAccount_self (txns : List Transaction) (aid : Nat)
    (b : Nat → ℚ) :
    recomputeAccount txns aid b aid = incomingTotal txns aid - outgoingTotal txns aid := by
  simp [recomputeAccount, Account.update_balance]

/-- Evaluating a recomputed balance map away from the recomputed account. -/
theorem recomputeAccount_other (txns : List Transaction) (aid x : Nat)
    (b : Nat → ℚ) (h : x ≠ aid) :
    recomputeAccount txns aid b x = b x := by
  simp [recomputeAccount, h]

/-- The persisted transaction list after `Transaction.save`. -/
theorem transaction_save_txns (s : FinanceState) (t : Transaction) :
    (Transaction.save s t).txns = s.txns ++ [t.normalize] := by
  unfold Transaction.save
  dsimp only
  rcases t.normalize.destination_account with _ | d <;> dsimp only
  split_ifs <;> rfl

/-- After `Transaction.save`, the source account's balance is its aggregated
income minus its aggregated expense over the persisted rows. -/
theorem transaction_save_balance_source (s : FinanceState) (t : Transaction) :
    (Transaction.save s t).balances t.source_account =
      incomingTotal (s.txns ++ [t.normalize]) t.source_account -
      outgoingTotal (s.txns ++ [t.normalize]) t.source_account := by
  unfold Transaction.save
  dsimp only
  rw [normalize_source_account]
  rcases t.normalize.destination_account with _ | d <;> dsimp only
  · exact recomputeAccount_self _ _ _
  · split_ifs with h <;> dsimp only
    · exact recomputeAccount_self _ _ _
    · rw [recomputeAccount_other _ _ _ _ fun hx => h hx.symm]
      exact recomputeAccount_self _ _ _

/-- After `Transaction.save`, a set destination account's balance is its
aggregated income minus its aggregated expense over the persisted rows. -/
theorem transaction_save_balance_dest (s : FinanceState) (t : Transaction)
    (d : Nat) (hd : t.normalize.destination_account = some d) :
    (Transaction.save s t).balances d =
      incomingTotal (s.txns ++ [t.normalize]) d -
      outgoingTotal (s.txns ++ [t.normalize]) d := by
  unfold Transaction.save
  dsimp only
  rw [hd]
  dsimp only
  split_ifs with h
  · rw [h, normalize_source_account]
    exact recomputeAccount_self _ _ _
  · exact recomputeAccount_self _ _ _

/-- Claim C5: after `Transaction.save`, each touched account's balance equals
the sum of its incoming transaction amounts minus the sum of its outgoing
transaction amounts (the source account always, and the destination account
whenever one is set on the persisted row); and when the recomputation inside
`Account.update_balance` fails, the account's prior balance is left unchanged
rather than an error being raised. -/
theorem c5_balances_recomputed_failure_swallowed (s : FinanceState) (t : Transaction) :
    ((Transaction.save s t).balances t.source_account =
      incomingTotal (Transaction.save s t).txns t.source_account -
      outgoingTotal (Transaction.save s t).txns t.source_account) ∧
    (∀ d, t.normalize.destination_account = some d →
      (Transaction.save s t).balances d =
        incomingTotal (Transaction.save s t).txns d -
        outgoingTotal (Transaction.save s t).txns d) ∧
    (∀ b : ℚ, Account.update_balance none b = b) := by
  refine ⟨?_, fun d hd => ?_, fun b => rfl⟩
  · rw [transaction_save_txns]
    exact transaction_save_balance_source s t
  · rw [transaction_save_txns]
    exact transaction_save_balance_dest s t d hd

/-- Witness for `c5_balances_recomputed_failure_swallowed` at a concrete
input: a transfer of 7 from account 0 to account 1 on an empty ledger. -/
theorem c5_balances_recomputed_failure_swallowed_witness :
    (Transaction.mk "transfer" 7 0 (some 1)).normalize.destination_account = some 1 ∧
    (Transaction.save ⟨fun _ => 0, []⟩ (Transaction.mk "transfer" 7 0 (some 1))).balances 1 =
      incomingTotal (Transaction.save ⟨fun _ => 0, []⟩
        (Transaction.mk "transfer" 7 0 (some 1))).txns 1 -
      outgoingTotal (Transaction.save ⟨fun _ => 0, []⟩
        (Transaction.mk "transfer" 7 0 (some 1))).txns 1 :=
  ⟨rfl,
   (c5_balances_recomputed_failure_swallowed ⟨fun _ => 0, []⟩
      (Transaction.mk "transfer" 7 0 (some 1))).2.1 1 rfl⟩

/-- Claim C8: `Transaction.save` normalizes the destination before
persisting — for type `income` the persisted row's `destination_account`
equals its `source_account`, for type `expense` it is null — and the row
persisted by `save` is exactly the normalized row. -/
theorem c8_save_normalizes_destination (t : Transaction) (s : FinanceState) :
    (t.transaction_type = "income" →
      t.normalize.destination_account = some t.source_account) ∧
    (t.transaction_type = "expense" →
      t.normalize.destination_account = none) ∧
    (Transaction.save s t).txns = s.txns ++ [t.normalize] := by
  refine ⟨fun h => ?_, fun h => ?_, transaction_save_txns s t⟩
  · simp [Transaction.normalize, h]
  · simp [Transaction.normalize, h]

/-- Witness for `c8_save_normalizes_destination` at concrete inputs: an
income transaction and an expense transaction. -/
theorem c8_save_normalizes_destination_witness :
    (Transaction.mk "income" 5 2 none).transaction_type = "income" ∧
    (Transaction.mk "income" 5 2 none).normalize.destination_account = some 2 ∧
    (Transaction.mk "expense" 5 2 (some 3)).transaction_type = "expense" ∧
    (Transaction.mk "expense" 5 2 (some 3)).normalize.destination_account = none :=
  ⟨rfl,
   (c8_save_normalizes_destination (Transaction.mk "income" 5 2 none)
      ⟨fun _ => 0, []⟩).1 rfl,
   rfl,
   (c8_save_normalizes_destination (Transaction.mk "expense" 5 2 (some 3))
      ⟨fun _ => 0, []⟩).2.1 rfl⟩

/-! ## apps/tracking/models.py -/

/-- A `TrackingHistory` row. -/
structure TrackingHistoryRow where
  status : String
  previous_status : String
  location : Option String
  details : Option String
  deriving DecidableEq, Repr

/-- Row state of `TrackingNumber` together with its related history rows. -/
structure TrackingNumber where
  current_status : String
  shipped_date : Option Nat
  delivered_date : Option Nat
  history : List TrackingHistoryRow
  deriving DecidableEq, Repr

/-- The nine status keys of `TrackingNumber.STATUS_CHOICES`. -/
def TrackingNumber.STATUS_CHOICES : List String :=
  ["pending", "shipped", "in_transit", "customs", "arrived", "delivered",
   "returned", "lost", "unknown"]

/-- `TrackingNumber.update_status`: when `status` is one of the known keys,
sets `current_status`, stamps `shipped_date` / `delivered_date` on first
entry to that status, saves, appends one `TrackingHistory` row recording old
and new status, and returns `True`; otherwise returns `False` and changes
nothing. -/
def TrackingNumber.update_status (now : Nat) (tn : TrackingNumber)
    (status : String) (location details : Option String) :
    Bool × TrackingNumber :=
  if status ∈ TrackingNumber.STATUS_CHOICES then
    let old := tn.current_status
    let tn1 : TrackingNumber := { tn with current_status := status }
    let tn2 : TrackingNumber :=
      if status = "shipped" ∧ tn1.shipped_date = none then
        { tn1 with shipped_date := some now }
      else if status = "delivered" ∧ tn1.delivered_date = none then
        { tn1 with delivered_date := some now }
      else tn1
    (true, { tn2 with history := tn2.history ++ [⟨status, old, location, details⟩] })
  else (false, tn)

/-- Claim C7: `update_status` with an unknown status returns failure and
leaves the row (current status, stamped dates, history) unchanged; with a
known status it appends exactly one history row recording the old and new
status; and `update_status "delivered"` sets `delivered_date` only when it is
unset, so a second delivered call leaves `delivered_date` unchanged. -/
theorem c7_update_status_guard_history_delivered (now now2 : Nat)
    (tn : TrackingNumber) (s : String) (location details loc2 det2 : Option String) :
    (s ∉ TrackingNumber.STATUS_CHOICES →
      tn.update_status now s location details = (false, tn)) ∧
    (s ∈ TrackingNumber.STATUS_CHOICES →
      (tn.update_status now s location details).2.history =
        tn.history ++ [⟨s, tn.current_status, location, details⟩]) ∧
    (tn.delivered_date = none →
      (tn.update_status now "delivered" location details).2.delivered_date = some now ∧
      ((tn.update_status now "delivered" location details).2.update_status
          now2 "delivered" loc2 det2).2.delivered_date = some now) := by
  refine ⟨fun h => ?_, fun h => ?_, fun h => ?_⟩
  · unfold TrackingNumber.update_status
    rw [if_neg h]
  · unfold TrackingNumber.update_status
    rw [if_pos h]
    dsimp only
    split_ifs <;> rfl
  · unfold TrackingNumber.update_status
    simp [TrackingNumber.STATUS_CHOICES, h]

/-- Witness for `c7_update_status_guard_history_delivered` at a concrete
input: a fresh `pending` tracking number, a bogus status and two delivered
calls. -/
theorem c7_update_status_guard_history_delivered_witness :
    ("bogus" ∉ TrackingNumber.STATUS_CHOICES) ∧
    ((TrackingNumber.mk "pending" none none []).update_status 1 "bogus" none none =
      (false, TrackingNumber.mk "pending" none none [])) ∧
    ("shipped" ∈ TrackingNumber.STATUS_CHOICES) ∧
    (((TrackingNumber.mk "pending" none none []).update_status 1 "shipped" none none).2.history =
      [] ++ [⟨"shipped", "pending", none, none⟩]) ∧
    (((TrackingNumber.mk "pending" none none []).update_status 1 "delivered" none none).2.delivered_date = some 1 ∧
      (((TrackingNumber.mk "pending" none none []).update_status 1 "delivered" none none).2.update_status
        2 "delivered" none none).2.delivered_date = some 1) :=
  ⟨by decide,
   (c7_update_status_guard_history_delivered 1 2
      (TrackingNumber.mk "pending" none none []) "bogus" none none none none).1 (by decide),
   by decide,
   (c7_update_status_guard_history_delivered 1 2
      (TrackingNumber.mk "pending" none none []) "shipped" none none none none).2.1 (by decide),
   (c7_update_status_guard_history_delivered 1 2
      (TrackingNumber.mk "pending" none none []) "delivered" none none none none).2.2 rfl⟩

/-! ## apps/finance/models.py — BudgetCategory -/

/-- Row state of `BudgetCategory` (the `progress` property only reads
`amount`; the aggregated `actual_amount` is passed in as a value). -/
structure BudgetCategory where
  amount : ℚ
  deriving DecidableEq, Repr

/-- `BudgetCategory.progress`: `actual / amount * 100`, guarded to 0 when
`amount ≤ 0` (the source guard `not self.amount or self.amount <= 0` reduces
to `amount ≤ 0` since the column is non-null).  `actual` is the value of the
`actual_amount` aggregate, which itself returns 0 rather than `None`. -/
def BudgetCategory.progress (bc : BudgetCategory) (actual : ℚ) : ℚ :=
  if bc.amount ≤ 0 then 0 else actual / bc.amount * 100

/-- Claim C9: for every `BudgetCategory`, `progress` equals
`(actual_amount / amount) × 100` when `amount > 0` and equals 0 when
`amount ≤ 0`; being a total function of the row, reading it never raises a
division-by-zero error. -/
theorem c9_progress_division_guard (bc : BudgetCategory) (actual : ℚ) :
    (0 < bc.amount → bc.progress actual = actual / bc.amount * 100) ∧
    (bc.amount ≤ 0 → bc.progress actual = 0) := by
  refine ⟨fun h => ?_, fun h => ?_⟩
  · rw [BudgetCategory.progress, if_neg (not_le.mpr h)]
  · rw [BudgetCategory.progress, if_pos h]

/-- Witness for `c9_progress_division_guard` at concrete inputs: a zero
budget amount gives progress 0, a positive one divides. -/
theorem c9_progress_division_guard_witness :
    ((0 : ℚ) ≤ 0 ∧ (BudgetCategory.mk 0).progress 5 = 0) ∧
    ((0 : ℚ) < 4 ∧ (BudgetCategory.mk 4).progress 5 = 5 / 4 * 100) :=
  ⟨⟨le_refl 0, (c9_progress_division_guard (BudgetCategory.mk 0) 5).2 (le_refl 0)⟩,
   ⟨by norm_num, (c9_progress_division_guard (BudgetCategory.mk 4) 5).1 (by norm_num)⟩⟩

end TIM
